import Mathlib

/-
Verification development for the ecu_diagnostics UDS-over-ISO-TP FFI layer.

The repository ships two interface headers (src/ecu_diagnostics.hpp and
src/ffi/ecu_diagnostics_ffi.hpp) plus an example caller; the bodies of the
boundary functions are not part of the shown sources.  The data model below is
translated from the headers; every operation whose body is missing from src/
is modelled from the specification, and its doc comment says so explicitly.
Machine integers (uint8_t, uint32_t) are modelled as Nat, with an explicit
% 256 mask at the one place where a byte is stored from attacker-controlled
response data.
-/

namespace EcuDiagnostics

/-- Callback handler result codes, from the CallbackHandlerResult enum of
src/ecu_diagnostics.hpp (identical in the ffi header). -/
inductive CallbackHandlerResult where
  | OK
  | ReadTimeout
  | WriteTimeout
  | APIError
  | CallbackAlreadyExists
  deriving DecidableEq

/-- Numeric values the C headers assign to CallbackHandlerResult. -/
def CallbackHandlerResult.code : CallbackHandlerResult → Nat
  | .OK => 0
  | .ReadTimeout => 2
  | .WriteTimeout => 3
  | .APIError => 4
  | .CallbackAlreadyExists => 5

/-- Diagnostic server response codes.  This follows the richer enum of
src/ffi/ecu_diagnostics_ffi.hpp, which is a superset of the one in
src/ecu_diagnostics.hpp (the latter lacks ParameterInvalid, HardwareError
and Todo). -/
inductive DiagServerResult where
  | OK
  | NotSupported
  | EmptyResponse
  | WrongMessage
  | ServerNotRunning
  | InvalidResponseLength
  | NoHandler
  | ServerAlreadyRunning
  | NoDiagnosticServer
  | ParameterInvalid
  | HardwareError
  | ECUError
  | HandlerError
  | Todo
  deriving DecidableEq

/-- Numeric values the ffi header assigns to DiagServerResult. -/
def DiagServerResult.code : DiagServerResult → Nat
  | .OK => 0
  | .NotSupported => 1
  | .EmptyResponse => 2
  | .WrongMessage => 3
  | .ServerNotRunning => 4
  | .InvalidResponseLength => 5
  | .NoHandler => 6
  | .ServerAlreadyRunning => 7
  | .NoDiagnosticServer => 8
  | .ParameterInvalid => 9
  | .HardwareError => 10
  | .ECUError => 98
  | .HandlerError => 99
  | .Todo => 100

/-- UDS command service identifiers, from the UDSCommand enum of
src/ecu_diagnostics.hpp (the closed form, without the ffi header's open
Other variant, since the claims cite the closed header). -/
inductive UDSCommand where
  | DiagnosticSessionControl
  | ECUReset
  | SecurityAccess
  | CommunicationControl
  | TesterPresent
  | AccessTimingParameters
  | SecuredDataTransmission
  | ControlDTCSettings
  | ResponseOnEvent
  | LinkControl
  | ReadDataByIdentifier
  | ReadMemoryByAddress
  | ReadScalingDataByIdentifier
  | ReadDataByPeriodicIdentifier
  | DynamicallyDefineDataIdentifier
  | WriteDataByIdentifier
  | WriteMemoryByAddress
  | ClearDiagnosticInformation
  | ReadDTCInformation
  | InputOutputControlByIdentifier
  | RoutineControl
  | RequestDownload
  | RequestUpload
  | TransferData
  | RequestTransferExit
  deriving DecidableEq

/-- Byte value of each UDS service identifier, exactly the enumerator values
declared in src/ecu_diagnostics.hpp. -/
def UDSCommand.toByte : UDSCommand → Nat
  | .DiagnosticSessionControl => 16
  | .ECUReset => 17
  | .SecurityAccess => 39
  | .CommunicationControl => 40
  | .TesterPresent => 62
  | .AccessTimingParameters => 131
  | .SecuredDataTransmission => 132
  | .ControlDTCSettings => 133
  | .ResponseOnEvent => 134
  | .LinkControl => 135
  | .ReadDataByIdentifier => 34
  | .ReadMemoryByAddress => 35
  | .ReadScalingDataByIdentifier => 36
  | .ReadDataByPeriodicIdentifier => 42
  | .DynamicallyDefineDataIdentifier => 44
  | .WriteDataByIdentifier => 46
  | .WriteMemoryByAddress => 61
  | .ClearDiagnosticInformation => 20
  | .ReadDTCInformation => 25
  | .InputOutputControlByIdentifier => 47
  | .RoutineControl => 49
  | .RequestDownload => 52
  | .RequestUpload => 53
  | .TransferData => 54
  | .RequestTransferExit => 55

/-- Capacity of the CallbackPayload data array: uint8_t data[4096] in
src/ecu_diagnostics.hpp. -/
def CALLBACK_DATA_CAPACITY : Nat := 4096

/-- Capacity of the UdsPayload argument array: uint8_t args[4095] in
src/ecu_diagnostics.hpp. -/
def UDS_ARGS_CAPACITY : Nat := 4095

/-- Payload exchanged with the channel callbacks, from the CallbackPayload
struct: target address, data size, data bytes.  The fixed C array is
modelled as a list; data_len designates how many leading bytes are valid,
exactly as in the C struct. -/
structure CallbackPayload where
  addr : Nat
  data_len : Nat
  data : List Nat
  deriving DecidableEq

/-- Base channel callback table, from the BaseChannelCallbackHandler struct.
Each C function pointer is modelled as an abstract pointer value (a Nat);
the behaviour of the registered channel is supplied separately by a
ChannelEnv oracle when an operation runs. -/
structure BaseChannelCallbackHandler where
  open_callback : Nat
  close_callback : Nat
  write_bytes_callback : Nat
  read_bytes_callback : Nat
  clear_tx_callback : Nat
  clear_rx_callback : Nat
  set_ids_callback : Nat
  deriving DecidableEq

/-- ISO-TP configuration options, from the IsoTPSettings struct. -/
structure IsoTPSettings where
  block_size : Nat
  st_min : Nat
  extended_addressing : Bool
  pad_frame : Bool
  can_speed : Nat
  can_use_ext_addr : Bool
  deriving DecidableEq

/-- ISO-TP channel callback table, from the IsoTpChannelCallbackHandler
struct: the base table plus the ISO-TP configure callback pointer. -/
structure IsoTpChannelCallbackHandler where
  base : BaseChannelCallbackHandler
  set_iso_tp_cfg_callback : Nat
  deriving DecidableEq

/-- UDS server options, from the UdsServerOptions struct. -/
structure UdsServerOptions where
  send_id : Nat
  recv_id : Nat
  read_timeout_ms : Nat
  write_timeout_ms : Nat
  global_tp_id : Nat
  tester_present_interval_ms : Nat
  tester_present_require_response : Bool
  deriving DecidableEq

/-- Payload handed to send_payload_uds, from the UdsPayload struct: service
identifier, argument length, argument bytes. -/
structure UdsPayload where
  sid : UDSCommand
  args_len : Nat
  args : List Nat
  deriving DecidableEq

/-- Modelled from the spec: the DiagnosticSession data of section 3 (the
running server's live state); the session type itself is absent from src/.
It carries the options given at creation and the timestamp (ms) of the last
bus activity, the only mutable field. -/
structure DiagnosticSession where
  settings : UdsServerOptions
  last_activity : Nat
  deriving DecidableEq

/-- Modelled from the spec: the process-wide registration slots of sections
3 and 4.5 (one channel callback registration, one running server, plus the
last captured negative response code); the global state is absent from
src/. -/
structure GlobalState where
  callback : Option IsoTpChannelCallbackHandler
  server : Option DiagnosticSession
  last_nrc : Nat
  deriving DecidableEq

/-- Modelled from the spec: the initial process state, before any
registration; the last NRC slot starts at 0. -/
def initialState : GlobalState := ⟨none, none, 0⟩

/-- Behaviour oracle for the registered channel during one operation: what
each channel callback returns, and which payload a successful read
delivers.  This stands in for the embedder-supplied C function pointers,
whose code is outside the repository. -/
structure ChannelEnv where
  clear_rx_result : CallbackHandlerResult
  write_result : CallbackPayload → Nat → CallbackHandlerResult
  read_result : Nat → CallbackHandlerResult
  read_payload : CallbackPayload
  configure_result : IsoTPSettings → CallbackHandlerResult

/-- UDS negative-response marker byte (0x7F), the reserved first byte of a
negative response. -/
def NEGATIVE_RESPONSE_MARKER : Nat := 0x7F

/-- Modelled from the spec: response validation, step (5) of the section 4.3
request sequence; the body of send_payload_uds is absent from src/.  A
response of length zero is EmptyResponse; a response opening with the
negative-response marker captures the NRC byte of the [0x7F, SID, NRC]
frame into the last-error slot and reports ECUError; a response whose
first byte does not echo the original service identifier (the transport
normalizes the positive-response +0x40 offset away, per the header notes)
is WrongMessage; otherwise OK. -/
def validate_uds_response (sidByte : Nat) (resp : CallbackPayload)
    (st : GlobalState) : DiagServerResult × GlobalState :=
  let bytes := resp.data.take resp.data_len
  if resp.data_len = 0 then (.EmptyResponse, st)
  else if bytes.getD 0 0 = NEGATIVE_RESPONSE_MARKER then
    (.ECUError, { st with last_nrc := bytes.getD 2 0 % 256 })
  else if bytes.getD 0 0 ≠ sidByte then (.WrongMessage, st)
  else (.OK, st)

/-- Modelled from the spec: step (2) of the section 4.3 request sequence,
building the outbound channel payload from the service identifier and the
argument bytes; the body of send_payload_uds is absent from src/. -/
def build_request (sess : DiagnosticSession) (p : UdsPayload) : CallbackPayload :=
  ⟨sess.settings.send_id, p.args_len + 1, p.sid.toByte :: p.args.take p.args_len⟩

/-- Outcome of one send_payload_uds call: the result code, the caller's
payload buffer afterwards (replaced only on a successful response), and
the process state afterwards. -/
structure SendOutcome where
  result : DiagServerResult
  payload : UdsPayload
  state : GlobalState
  deriving DecidableEq

/-- Modelled from the spec: the body of send_payload_uds, declared in
src/ecu_diagnostics.hpp but implemented outside the shown sources.
Section 4.3 steady state: with no running server the call reports
NoDiagnosticServer; otherwise it (1) clears the receive buffer, (2) builds
the outbound payload, (3) writes it with the configured write timeout,
(4) reads with the configured read timeout when a response is required,
and (5) validates the response; channel failures surface as HandlerError
(section 7, capability errors).  On success the caller's buffer is
replaced by the response and the last-activity timestamp refreshed. -/
def send_payload_uds (st : GlobalState) (env : ChannelEnv) (payload : UdsPayload)
    (response_require : Bool) (now : Nat) : SendOutcome :=
  match st.server with
  | none => ⟨.NoDiagnosticServer, payload, st⟩
  | some sess =>
    if env.clear_rx_result ≠ .OK then ⟨.HandlerError, payload, st⟩
    else if env.write_result (build_request sess payload)
        sess.settings.write_timeout_ms ≠ .OK then ⟨.HandlerError, payload, st⟩
    else if response_require then
      if env.read_result sess.settings.read_timeout_ms ≠ .OK then
        ⟨.HandlerError, payload, st⟩
      else
        let resp := env.read_payload
        let vr := validate_uds_response payload.sid.toByte resp st
        if vr.1 = .OK then
          ⟨.OK, ⟨payload.sid, resp.data_len - 1, (resp.data.take resp.data_len).tail⟩,
            { vr.2 with server := some { sess with last_activity := now } }⟩
        else ⟨vr.1, payload, vr.2⟩
    else
      ⟨.OK, payload, { st with server := some { sess with last_activity := now } }⟩

/-- Modelled from the spec: the body of register_isotp_callback, declared in
src/ecu_diagnostics.hpp but implemented outside the shown sources.
Section 4.5: registering while a callback set exists reports the
CallbackAlreadyExists code without disturbing the first registration (the
C declaration returns void; the spec, section 4.1, says the
capability-already-registered outcome is signalled, so the model returns
it). -/
def register_isotp_callback (st : GlobalState) (cb : IsoTpChannelCallbackHandler) :
    CallbackHandlerResult × GlobalState :=
  match st.callback with
  | some _ => (.CallbackAlreadyExists, st)
  | none => (.OK, { st with callback := some cb })

/-- Modelled from the spec: the body of destroy_isotp_callback, declared in
src/ecu_diagnostics.hpp but implemented outside the shown sources.
Section 4.5: destruction is idempotent; the slot is simply cleared. -/
def destroy_isotp_callback (st : GlobalState) : GlobalState :=
  { st with callback := none }

/-- Modelled from the spec: the body of get_ecu_error_code, declared in
src/ecu_diagnostics.hpp but implemented outside the shown sources.  It
reads the last captured negative response code (section 3, NRC slot);
total, no failure channel. -/
def get_ecu_error_code (st : GlobalState) : Nat :=
  st.last_nrc

/-- Modelled from the spec: the body of create_uds_server_over_isotp,
declared in src/ecu_diagnostics.hpp but implemented outside the shown
sources.  Section 4.3 Uninitialized to Running: creation requires no other
server running (else ServerAlreadyRunning), a registered channel callback
(else NoHandler), non-zero read and write timeouts (else ParameterInvalid)
and a successful channel configure (else HandlerError, a capability
failure); any failure leaves the state unchanged.  The spec fixes the set
of required conditions and their failure codes but not a precedence
between simultaneously violated ones; the model checks in the order
listed. -/
def create_uds_server_over_isotp (st : GlobalState) (settings : UdsServerOptions)
    (iso_tp_opts : IsoTPSettings) (env : ChannelEnv) (now : Nat) :
    DiagServerResult × GlobalState :=
  match st.server with
  | some _ => (.ServerAlreadyRunning, st)
  | none =>
    match st.callback with
    | none => (.NoHandler, st)
    | some _ =>
      if settings.read_timeout_ms = 0 ∨ settings.write_timeout_ms = 0 then
        (.ParameterInvalid, st)
      else if env.configure_result iso_tp_opts = .OK then
        (.OK, { st with server := some ⟨settings, now⟩ })
      else (.HandlerError, st)

/-- Modelled from the spec: one scheduling decision of the keep-alive
(tester-present) task of section 4.4, which is implemented outside the
shown sources.  With the server running and a non-zero keep-alive target
address, an exchange is issued exactly when the configured interval has
elapsed since the last recorded bus activity; issuing refreshes the
activity timestamp, and when a response is required the same validation
as the request path runs, non-fatally to the session.  Returns whether an
exchange was issued and the state afterwards. -/
def tester_present_tick (st : GlobalState) (env : ChannelEnv) (now : Nat) :
    Bool × GlobalState :=
  match st.server with
  | none => (false, st)
  | some sess =>
    if sess.settings.global_tp_id = 0 then (false, st)
    else if now < sess.last_activity + sess.settings.tester_present_interval_ms then
      (false, st)
    else
      let st1 : GlobalState := { st with server := some { sess with last_activity := now } }
      if sess.settings.tester_present_require_response then
        if env.read_result sess.settings.read_timeout_ms = .OK then
          (true, (validate_uds_response UDSCommand.TesterPresent.toByte env.read_payload st1).2)
        else (true, st1)
      else (true, st1)

/-- Modelled from the spec: the body of destroy_uds_server, declared in
src/ecu_diagnostics.hpp but implemented outside the shown sources.
Sections 4.3 and 4.5: explicit teardown of the running server; idempotent
when no server exists. -/
def destroy_uds_server (st : GlobalState) : GlobalState :=
  { st with server := none }

/-- One boundary operation applied to the process state. -/
inductive Step : GlobalState → GlobalState → Prop where
  | register (st : GlobalState) (cb : IsoTpChannelCallbackHandler) :
      Step st (register_isotp_callback st cb).2
  | destroyCb (st : GlobalState) : Step st (destroy_isotp_callback st)
  | create (st : GlobalState) (settings : UdsServerOptions) (iso : IsoTPSettings)
      (env : ChannelEnv) (now : Nat) :
      Step st (create_uds_server_over_isotp st settings iso env now).2
  | send (st : GlobalState) (env : ChannelEnv) (p : UdsPayload) (rr : Bool) (now : Nat) :
      Step st (send_payload_uds st env p rr now).state
  | tick (st : GlobalState) (env : ChannelEnv) (now : Nat) :
      Step st (tester_present_tick st env now).2
  | destroy (st : GlobalState) : Step st (destroy_uds_server st)

/-- States reachable from the initial process state through boundary
operations. -/
inductive Reachable : GlobalState → Prop where
  | init : Reachable initialState
  | step {st st' : GlobalState} : Reachable st → Step st st' → Reachable st'

/-- Membership in the closed result-code enumeration the spec's section 6
lists for the external boundary (all DiagServerResult codes except the
ffi header's transitional Todo code). -/
def inBoundaryEnumeration : DiagServerResult → Bool
  | .OK => true
  | .NotSupported => true
  | .EmptyResponse => true
  | .WrongMessage => true
  | .ServerNotRunning => true
  | .InvalidResponseLength => true
  | .NoHandler => true
  | .ServerAlreadyRunning => true
  | .NoDiagnosticServer => true
  | .ParameterInvalid => true
  | .HardwareError => true
  | .ECUError => true
  | .HandlerError => true
  | .Todo => false

/-- Concrete channel callback table used by the witnesses (abstract pointer
values). -/
def exHandler : IsoTpChannelCallbackHandler := ⟨⟨1, 2, 3, 4, 5, 6, 7⟩, 8⟩

/-- Second concrete channel callback table, distinct from exHandler. -/
def exHandler2 : IsoTpChannelCallbackHandler := ⟨⟨11, 12, 13, 14, 15, 16, 17⟩, 18⟩

/-- Concrete server options used by the witnesses, mirroring the example
application in src/ffi/examples. -/
def exOptions : UdsServerOptions := ⟨0x7E0, 0x7E8, 1000, 1000, 0x7DF, 2500, true⟩

/-- Concrete ISO-TP settings used by the witnesses, mirroring the example
application. -/
def exIso : IsoTPSettings := ⟨20, 8, false, true, 500000, false⟩

/-- Channel oracle whose operations all succeed and whose read delivers a
positive three-byte echo of the DiagnosticSessionControl request. -/
def exEnvOK : ChannelEnv :=
  ⟨.OK, fun _ _ => .OK, fun _ => .OK, ⟨0x7E8, 3, [16, 1, 2]⟩, fun _ => .OK⟩

/-- State after registering exHandler on the initial state. -/
def exState1 : GlobalState := (register_isotp_callback initialState exHandler).2

/-- State after additionally creating a server with the example options. -/
def exState2 : GlobalState :=
  (create_uds_server_over_isotp exState1 exOptions exIso exEnvOK 0).2

/-- The session running in exState2. -/
def exSession : DiagnosticSession := ⟨exOptions, 0⟩

/-- Concrete request payload used by the witnesses: extended diagnostic
session control, as in the example application. -/
def exPayload : UdsPayload := ⟨.DiagnosticSessionControl, 1, [3]⟩

/-- Channel oracle delivering the negative response [0x7F, 0x10, 0x22]. -/
def cexEnv : ChannelEnv :=
  ⟨.OK, fun _ _ => .OK, fun _ => .OK, ⟨0x7E8, 3, [0x7F, 16, 0x22]⟩, fun _ => .OK⟩

/-- Channel oracle delivering a response with a genuinely wrong service
identifier (0x11 against a 0x10 request). -/
def cexEnvWrong : ChannelEnv :=
  ⟨.OK, fun _ _ => .OK, fun _ => .OK, ⟨0x7E8, 2, [17, 0]⟩, fun _ => .OK⟩

/-- No UDS service identifier byte coincides with the negative-response
marker byte 0x7F. -/
theorem UDSCommand.toByte_ne_marker (c : UDSCommand) :
    c.toByte ≠ NEGATIVE_RESPONSE_MARKER := by
  cases c <;> decide

/-- A successful validation pass: non-zero length and a first byte echoing
the original service identifier yield OK and leave the state unchanged. -/
theorem validate_uds_response_ok (sb : Nat) (resp : CallbackPayload)
    (st : GlobalState) (hlen : resp.data_len ≠ 0)
    (hmark : (resp.data.take resp.data_len).getD 0 0 ≠ NEGATIVE_RESPONSE_MARKER)
    (hfirst : (resp.data.take resp.data_len).getD 0 0 = sb) :
    validate_uds_response sb resp st = (.OK, st) := by
  simp only [validate_uds_response]
  rw [if_neg hlen, if_neg hmark, if_neg (not_not_intro hfirst)]

/-- C1: with a response required, a delivered response of non-zero length
whose first byte equals the original request's service identifier makes
send_payload_uds return OK, and the caller's payload buffer afterwards
holds exactly the response bytes and the response length. -/
theorem uds_roundtrip_ok (st : GlobalState) (env : ChannelEnv) (p : UdsPayload)
    (now : Nat) (sess : DiagnosticSession)
    (hs : st.server = some sess)
    (hclear : env.clear_rx_result = .OK)
    (hwrite : env.write_result (build_request sess p) sess.settings.write_timeout_ms = .OK)
    (hread : env.read_result sess.settings.read_timeout_ms = .OK)
    (hlen : env.read_payload.data_len ≠ 0)
    (hwf : env.read_payload.data_len ≤ env.read_payload.data.length)
    (hfirst : (env.read_payload.data.take env.read_payload.data_len).getD 0 0 = p.sid.toByte) :
    (send_payload_uds st env p true now).result = .OK ∧
    (send_payload_uds st env p true now).payload.sid.toByte ::
        (send_payload_uds st env p true now).payload.args =
      env.read_payload.data.take env.read_payload.data_len ∧
    (send_payload_uds st env p true now).payload.args_len + 1 =
      env.read_payload.data_len := by
  have hmark : (env.read_payload.data.take env.read_payload.data_len).getD 0 0 ≠
      NEGATIVE_RESPONSE_MARKER := by
    rw [hfirst]; exact UDSCommand.toByte_ne_marker p.sid
  have hvr := validate_uds_response_ok p.sid.toByte env.read_payload st hlen hmark hfirst
  have hsend : send_payload_uds st env p true now =
      ⟨.OK, ⟨p.sid, env.read_payload.data_len - 1,
        (env.read_payload.data.take env.read_payload.data_len).tail⟩,
        { st with server := some { sess with last_activity := now } }⟩ := by
    unfold send_payload_uds
    rw [hs]
    simp only [hvr, if_neg (not_not_intro hclear),
      if_neg (not_not_intro hwrite), if_neg (not_not_intro hread)]
    simp
  have hne : env.read_payload.data.take env.read_payload.data_len ≠ [] := by
    intro hnil
    have : (env.read_payload.data.take env.read_payload.data_len).length = 0 := by
      rw [hnil]; rfl
    rw [List.length_take] at this
    omega
  obtain ⟨a, t, hat⟩ := List.exists_cons_of_ne_nil hne
  have hlen2 : (env.read_payload.data.take env.read_payload.data_len).length =
      env.read_payload.data_len := by
    rw [List.length_take]; omega
  refine ⟨by rw [hsend], ?_, ?_⟩
  · rw [hsend]
    have ha : a = p.sid.toByte := by
      rw [← hfirst, hat]; rfl
    simp only [hat, List.tail_cons, ha]
  · rw [hsend]
    simp only []
    omega

/-- C1 witness: the round-trip theorem at the concrete example state, with
the channel echoing [0x10, 0x01, 0x02] to a DiagnosticSessionControl
request. -/
theorem uds_roundtrip_ok_witness :
    exState2.server = some exSession ∧
    exEnvOK.clear_rx_result = .OK ∧
    exEnvOK.write_result (build_request exSession exPayload)
      exSession.settings.write_timeout_ms = .OK ∧
    exEnvOK.read_result exSession.settings.read_timeout_ms = .OK ∧
    exEnvOK.read_payload.data_len ≠ 0 ∧
    exEnvOK.read_payload.data_len ≤ exEnvOK.read_payload.data.length ∧
    (exEnvOK.read_payload.data.take exEnvOK.read_payload.data_len).getD 0 0 =
      exPayload.sid.toByte ∧
    (send_payload_uds exState2 exEnvOK exPayload true 7).result = .OK :=
  ⟨by decide, by decide, by decide, by decide, by decide, by decide, by decide,
    (uds_roundtrip_ok exState2 exEnvOK exPayload 7 exSession (by decide) (by decide)
      (by decide) (by decide) (by decide) (by decide) (by decide)).1⟩

/-- C2: with a response required, a delivered negative response
[0x7F, original SID, nrc] makes send_payload_uds return ECUError, and
get_ecu_error_code on the resulting state returns exactly nrc. -/
theorem uds_negative_response_nrc (st : GlobalState) (env : ChannelEnv)
    (p : UdsPayload) (now : Nat) (sess : DiagnosticSession) (a nrc : Nat)
    (hs : st.server = some sess)
    (hclear : env.clear_rx_result = .OK)
    (hwrite : env.write_result (build_request sess p) sess.settings.write_timeout_ms = .OK)
    (hread : env.read_result sess.settings.read_timeout_ms = .OK)
    (hresp : env.read_payload = ⟨a, 3, [NEGATIVE_RESPONSE_MARKER, p.sid.toByte, nrc]⟩)
    (hbyte : nrc < 256) :
    (send_payload_uds st env p true now).result = .ECUError ∧
    get_ecu_error_code (send_payload_uds st env p true now).state = nrc := by
  have hvr : validate_uds_response p.sid.toByte env.read_payload st =
      (.ECUError, { st with last_nrc := nrc % 256 }) := by
    rw [hresp]
    simp only [validate_uds_response]
    norm_num [List.getD, NEGATIVE_RESPONSE_MARKER]
  have hsend : send_payload_uds st env p true now =
      ⟨.ECUError, p, { st with last_nrc := nrc % 256 }⟩ := by
    unfold send_payload_uds
    rw [hs]
    simp only [hvr, if_neg (not_not_intro hclear), if_neg (not_not_intro hwrite),
      if_neg (not_not_intro hread)]
    simp [hs]
  rw [hsend]
  refine ⟨rfl, ?_⟩
  simp only [get_ecu_error_code]
  exact Nat.mod_eq_of_lt hbyte

/-- C2 witness: the negative-response theorem at the concrete example state,
with the channel answering [0x7F, 0x10, 0x22]. -/
theorem uds_negative_response_nrc_witness :
    exState2.server = some exSession ∧
    cexEnv.read_payload =
      ⟨0x7E8, 3, [NEGATIVE_RESPONSE_MARKER, exPayload.sid.toByte, 0x22]⟩ ∧
    (send_payload_uds exState2 cexEnv exPayload true 5).result = .ECUError ∧
    get_ecu_error_code (send_payload_uds exState2 cexEnv exPayload true 5).state = 0x22 :=
  ⟨by decide, by decide,
    (uds_negative_response_nrc exState2 cexEnv exPayload 5 exSession 0x7E8 0x22
      (by decide) (by decide) (by decide) (by decide) (by decide) (by decide)).1,
    (uds_negative_response_nrc exState2 cexEnv exPayload 5 exSession 0x7E8 0x22
      (by decide) (by decide) (by decide) (by decide) (by decide) (by decide)).2⟩

/-- C3 counterexample: the channel delivers [0x7F, 0x10, 0x22], whose first
byte differs from the original DiagnosticSessionControl identifier 0x10,
yet send_payload_uds returns ECUError, not WrongMessage; the claim as
stated fails on negative responses. -/
theorem uds_wrong_message_refuted :
    (cexEnv.read_payload.data.take cexEnv.read_payload.data_len).getD 0 0 ≠
      exPayload.sid.toByte ∧
    (send_payload_uds exState2 cexEnv exPayload true 5).result ≠ .WrongMessage ∧
    (send_payload_uds exState2 cexEnv exPayload true 5).result = .ECUError := by
  decide

/-- C3 amended: with a response required, a delivered response of non-zero
length whose first byte differs from the original request's service
identifier and is not the negative-response marker 0x7F makes
send_payload_uds return WrongMessage and leaves the caller's payload
buffer unmodified. -/
theorem uds_wrong_message_amended (st : GlobalState) (env : ChannelEnv)
    (p : UdsPayload) (now : Nat) (sess : DiagnosticSession)
    (hs : st.server = some sess)
    (hclear : env.clear_rx_result = .OK)
    (hwrite : env.write_result (build_request sess p) sess.settings.write_timeout_ms = .OK)
    (hread : env.read_result sess.settings.read_timeout_ms = .OK)
    (hlen : env.read_payload.data_len ≠ 0)
    (hfirst : (env.read_payload.data.take env.read_payload.data_len).getD 0 0 ≠ p.sid.toByte)
    (hmark : (env.read_payload.data.take env.read_payload.data_len).getD 0 0 ≠
      NEGATIVE_RESPONSE_MARKER) :
    (send_payload_uds st env p true now).result = .WrongMessage ∧
    (send_payload_uds st env p true now).payload = p := by
  have hvr : validate_uds_response p.sid.toByte env.read_payload st =
      (.WrongMessage, st) := by
    simp only [validate_uds_response]
    rw [if_neg hlen, if_neg hmark, if_pos hfirst]
  have hsend : send_payload_uds st env p true now = ⟨.WrongMessage, p, st⟩ := by
    unfold send_payload_uds
    rw [hs]
    simp only [hvr, if_neg (not_not_intro hclear), if_neg (not_not_intro hwrite),
      if_neg (not_not_intro hread)]
    simp
  rw [hsend]
  exact ⟨rfl, rfl⟩

/-- C3 amended witness: the channel answers a DiagnosticSessionControl
request (0x10) with [0x11, 0x00]; send_payload_uds reports WrongMessage
and the caller's buffer is untouched. -/
theorem uds_wrong_message_amended_witness :
    exState2.server = some exSession ∧
    cexEnvWrong.read_payload.data_len ≠ 0 ∧
    (cexEnvWrong.read_payload.data.take cexEnvWrong.read_payload.data_len).getD 0 0 ≠
      exPayload.sid.toByte ∧
    (send_payload_uds exState2 cexEnvWrong exPayload true 5).result = .WrongMessage ∧
    (send_payload_uds exState2 cexEnvWrong exPayload true 5).payload = exPayload :=
  ⟨by decide, by decide, by decide,
    (uds_wrong_message_amended exState2 cexEnvWrong exPayload 5 exSession (by decide)
      (by decide) (by decide) (by decide) (by decide) (by decide) (by decide)).1,
    (uds_wrong_message_amended exState2 cexEnvWrong exPayload 5 exSession (by decide)
      (by decide) (by decide) (by decide) (by decide) (by decide) (by decide)).2⟩

/-- C4: create_uds_server_over_isotp succeeds exactly when no server is
running, a channel callback is registered, both timeouts are non-zero and
the channel configure call succeeds; success moves the server to Running
with the given options, any failure leaves the state unchanged, and each
named failure cause yields its specific code. -/
theorem create_uds_server_spec (st : GlobalState) (settings : UdsServerOptions)
    (iso : IsoTPSettings) (env : ChannelEnv) (now : Nat) :
    ((create_uds_server_over_isotp st settings iso env now).1 = .OK ↔
      (st.server = none ∧ st.callback ≠ none ∧ settings.read_timeout_ms ≠ 0 ∧
        settings.write_timeout_ms ≠ 0 ∧ env.configure_result iso = .OK)) ∧
    ((create_uds_server_over_isotp st settings iso env now).1 = .OK →
      (create_uds_server_over_isotp st settings iso env now).2.server =
        some ⟨settings, now⟩) ∧
    ((create_uds_server_over_isotp st settings iso env now).1 ≠ .OK →
      (create_uds_server_over_isotp st settings iso env now).2 = st) ∧
    (st.server ≠ none →
      (create_uds_server_over_isotp st settings iso env now).1 = .ServerAlreadyRunning) ∧
    (st.server = none → st.callback = none →
      (create_uds_server_over_isotp st settings iso env now).1 = .NoHandler) ∧
    (st.server = none → st.callback ≠ none →
      (settings.read_timeout_ms = 0 ∨ settings.write_timeout_ms = 0) →
      (create_uds_server_over_isotp st settings iso env now).1 = .ParameterInvalid) := by
  unfold create_uds_server_over_isotp
  cases hsv : st.server <;> cases hcb : st.callback <;>
    by_cases hto : settings.read_timeout_ms = 0 ∨ settings.write_timeout_ms = 0 <;>
    by_cases hcf : env.configure_result iso = .OK <;>
    simp_all <;> tauto

/-- C4 witness: creating the example server on the registered-but-idle state
succeeds, applying the specification theorem's characterization. -/
theorem create_uds_server_spec_witness :
    (create_uds_server_over_isotp exState1 exOptions exIso exEnvOK 0).1 = .OK :=
  (create_uds_server_spec exState1 exOptions exIso exEnvOK 0).1.mpr
    ⟨by decide, by decide, by decide, by decide, by decide⟩

/-- C5: in every reachable state at most one channel callback registration
and at most one running server exist; a second registration reports
CallbackAlreadyExists and leaves the state untouched, and creating a
server while one runs reports ServerAlreadyRunning and leaves the state
untouched. -/
theorem single_slot_invariant (st : GlobalState) (h : Reachable st) :
    st.callback.toList.length ≤ 1 ∧ st.server.toList.length ≤ 1 ∧
    (∀ cb1 cb2, st.callback = some cb1 →
      (register_isotp_callback st cb2).1 = .CallbackAlreadyExists ∧
      (register_isotp_callback st cb2).2 = st) ∧
    (∀ sess settings iso env now, st.server = some sess →
      (create_uds_server_over_isotp st settings iso env now).1 = .ServerAlreadyRunning ∧
      (create_uds_server_over_isotp st settings iso env now).2 = st) := by
  refine ⟨?_, ?_, ?_, ?_⟩
  · cases st.callback <;> simp [Option.toList]
  · cases st.server <;> simp [Option.toList]
  · intro cb1 cb2 hcb
    unfold register_isotp_callback
    rw [hcb]
    exact ⟨rfl, rfl⟩
  · intro sess settings iso env now hsv
    unfold create_uds_server_over_isotp
    rw [hsv]
    exact ⟨rfl, rfl⟩

/-- C5 witness: on the reachable state holding both a registration and a
running server, a second registration and a second creation both report
the already-exists codes and leave the state untouched. -/
theorem single_slot_invariant_witness :
    (register_isotp_callback exState2 exHandler2).1 = .CallbackAlreadyExists ∧
    (register_isotp_callback exState2 exHandler2).2 = exState2 ∧
    (create_uds_server_over_isotp exState2 exOptions exIso exEnvOK 1).1 =
      .ServerAlreadyRunning ∧
    (create_uds_server_over_isotp exState2 exOptions exIso exEnvOK 1).2 = exState2 := by
  have hr : Reachable exState2 :=
    Reachable.step (Reachable.step Reachable.init (Step.register initialState exHandler))
      (Step.create exState1 exOptions exIso exEnvOK 0)
  have h1 := (single_slot_invariant exState2 hr).2.2.1 exHandler exHandler2 (by decide)
  have h2 := (single_slot_invariant exState2 hr).2.2.2 exSession exOptions exIso exEnvOK 1
    (by decide)
  exact ⟨h1.1, h1.2, h2.1, h2.2⟩

/-- Response validation never moves the server field. -/
theorem validate_uds_response_server (sb : Nat) (resp : CallbackPayload)
    (st : GlobalState) :
    (validate_uds_response sb resp st).2.server = st.server := by
  simp only [validate_uds_response]
  split_ifs <;> rfl

/-- C7: with the server running and a non-zero keep-alive target address, a
keep-alive exchange is issued only once the configured interval has
elapsed since the last recorded bus activity, it is suppressed while a
more recent activity is less than the interval old, and issuing records
the exchange itself as the new last activity. -/
theorem tester_present_schedule (st : GlobalState) (env : ChannelEnv) (now : Nat)
    (sess : DiagnosticSession)
    (hs : st.server = some sess)
    (htp : sess.settings.global_tp_id ≠ 0) :
    ((tester_present_tick st env now).1 = true →
      sess.last_activity + sess.settings.tester_present_interval_ms ≤ now) ∧
    (now < sess.last_activity + sess.settings.tester_present_interval_ms →
      (tester_present_tick st env now).1 = false) ∧
    ((tester_present_tick st env now).1 = true →
      ((tester_present_tick st env now).2).server =
        some { sess with last_activity := now }) := by
  simp only [tester_present_tick, hs]
  rw [if_neg htp]
  by_cases hlt : now < sess.last_activity + sess.settings.tester_present_interval_ms
  · rw [if_pos hlt]
    refine ⟨fun hfalse => absurd hfalse Bool.false_ne_true, fun _ => rfl,
      fun hfalse => absurd hfalse Bool.false_ne_true⟩
  · rw [if_neg hlt]
    refine ⟨fun _ => by omega, fun hcon => absurd hcon hlt, fun _ => ?_⟩
    by_cases hrr : sess.settings.tester_present_require_response
    · rw [if_pos hrr]
      by_cases hro : env.read_result sess.settings.read_timeout_ms = .OK
      · rw [if_pos hro]
        rw [validate_uds_response_server]
      · rw [if_neg hro]
    · rw [if_neg hrr]

/-- C7 witness: at the example state (last activity 0, interval 2500 ms,
keep-alive target 0x7DF) a tick at 3000 ms issues the exchange and a tick
at 2000 ms is suppressed. -/
theorem tester_present_schedule_witness :
    exState2.server = some exSession ∧
    exSession.settings.global_tp_id ≠ 0 ∧
    exSession.last_activity + exSession.settings.tester_present_interval_ms ≤ 3000 ∧
    (tester_present_tick exState2 exEnvOK 2000).1 = false :=
  ⟨by decide, by decide,
    (tester_present_schedule exState2 exEnvOK 3000 exSession (by decide) (by decide)).1
      (by decide),
    (tester_present_schedule exState2 exEnvOK 2000 exSession (by decide) (by decide)).2.1
      (by decide)⟩

/-- C9: for any UDS payload whose argument length is within the 4095-byte
argument array capacity, the outbound request built for the channel (the
service identifier byte followed by the argument bytes) fits within the
4096-byte channel payload capacity, both in declared length and in actual
bytes, so no request overruns the exchange buffer. -/
theorem request_fits_capacity (sess : DiagnosticSession) (p : UdsPayload)
    (h : p.args_len ≤ UDS_ARGS_CAPACITY) :
    (build_request sess p).data_len ≤ CALLBACK_DATA_CAPACITY ∧
    (build_request sess p).data.length ≤ CALLBACK_DATA_CAPACITY := by
  unfold UDS_ARGS_CAPACITY at h
  constructor
  · show p.args_len + 1 ≤ 4096
    omega
  · show (p.sid.toByte :: p.args.take p.args_len).length ≤ 4096
    simp only [List.length_cons, List.length_take]
    omega

/-- C9 witness: the theorem at the concrete example request. -/
theorem request_fits_capacity_witness :
    exPayload.args_len ≤ UDS_ARGS_CAPACITY ∧
    (build_request exSession exPayload).data_len ≤ CALLBACK_DATA_CAPACITY :=
  ⟨by decide, (request_fits_capacity exSession exPayload (by decide)).1⟩

/-- Response validation only produces codes of the closed boundary
enumeration. -/
theorem validate_uds_response_closed (sb : Nat) (resp : CallbackPayload)
    (st : GlobalState) :
    inBoundaryEnumeration (validate_uds_response sb resp st).1 = true := by
  simp only [validate_uds_response]
  split_ifs <;> rfl

/-- Closedness transfers through a branch on any decidable condition. -/
theorem ite_outcome_closed (c : Prop) [Decidable c] (a b : SendOutcome)
    (ha : inBoundaryEnumeration a.result = true)
    (hb : inBoundaryEnumeration b.result = true) :
    inBoundaryEnumeration (if c then a else b).result = true := by
  split_ifs <;> assumption

/-- C6: every result code the boundary operations return lies in the closed
enumeration of the spec (OK through HandlerError); neither server creation
nor request sending ever produces a code outside it, in particular never
the ffi header's transitional Todo code. -/
theorem boundary_results_closed (st st2 : GlobalState) (settings : UdsServerOptions)
    (iso : IsoTPSettings) (env env2 : ChannelEnv) (now now2 : Nat) (p : UdsPayload)
    (rr : Bool) :
    inBoundaryEnumeration (create_uds_server_over_isotp st settings iso env now).1 = true ∧
    inBoundaryEnumeration (send_payload_uds st2 env2 p rr now2).result = true := by
  constructor
  · unfold create_uds_server_over_isotp
    cases st.server
    · cases st.callback
      · rfl
      · split_ifs <;> rfl
    · rfl
  · unfold send_payload_uds
    split
    · rfl
    · split_ifs <;> first
        | rfl
        | exact ite_outcome_closed _ _ _ rfl (validate_uds_response_closed _ _ _)

/-- Registration and callback destruction never touch the last-error slot. -/
theorem register_isotp_callback_nrc (st : GlobalState)
    (cb : IsoTpChannelCallbackHandler) :
    (register_isotp_callback st cb).2.last_nrc = st.last_nrc := by
  simp only [register_isotp_callback]
  cases st.callback <;> rfl

/-- Server creation never touches the last-error slot. -/
theorem create_uds_server_nrc (st : GlobalState) (settings : UdsServerOptions)
    (iso : IsoTPSettings) (env : ChannelEnv) (now : Nat) :
    (create_uds_server_over_isotp st settings iso env now).2.last_nrc = st.last_nrc := by
  simp only [create_uds_server_over_isotp]
  cases st.server
  · cases st.callback
    · rfl
    · split_ifs <;> rfl
  · rfl

/-- Response validation keeps the last-error slot below 256. -/
theorem validate_uds_response_nrc_lt (sb : Nat) (resp : CallbackPayload)
    (st : GlobalState) (h : st.last_nrc < 256) :
    (validate_uds_response sb resp st).2.last_nrc < 256 := by
  simp only [validate_uds_response]
  split_ifs <;> first
    | exact h
    | exact Nat.mod_lt _ (by decide)

/-- A byte-sized last-error slot transfers through a branch of send
outcomes. -/
theorem ite_outcome_nrc_lt (c : Prop) [Decidable c] (a b : SendOutcome)
    (ha : a.state.last_nrc < 256) (hb : b.state.last_nrc < 256) :
    (if c then a else b).state.last_nrc < 256 := by
  split_ifs <;> assumption

/-- Request sending keeps the last-error slot below 256. -/
theorem send_payload_uds_nrc_lt (st : GlobalState) (env : ChannelEnv)
    (p : UdsPayload) (rr : Bool) (now : Nat) (h : st.last_nrc < 256) :
    (send_payload_uds st env p rr now).state.last_nrc < 256 := by
  unfold send_payload_uds
  split
  · exact h
  · split_ifs <;> first
      | exact h
      | exact ite_outcome_nrc_lt _ _ _ (validate_uds_response_nrc_lt _ _ _ h)
          (validate_uds_response_nrc_lt _ _ _ h)

/-- The keep-alive tick keeps the last-error slot below 256. -/
theorem tester_present_tick_nrc_lt (st : GlobalState) (env : ChannelEnv)
    (now : Nat) (h : st.last_nrc < 256) :
    (tester_present_tick st env now).2.last_nrc < 256 := by
  unfold tester_present_tick
  split
  · exact h
  · split_ifs <;> first
      | exact h
      | exact validate_uds_response_nrc_lt _ _ _ h

/-- C10: get_ecu_error_code is total, callable in any reachable state with no
failure channel; it always returns a byte (below 256), and in the initial
state, before any ECU rejection, it returns the initial value 0. -/
theorem ecu_error_code_total (st : GlobalState) (h : Reachable st) :
    get_ecu_error_code st < 256 ∧ get_ecu_error_code initialState = 0 := by
  refine ⟨?_, rfl⟩
  induction h with
  | init => decide
  | step hr hstep ih =>
    cases hstep with
    | register cb => exact lt_of_le_of_lt (register_isotp_callback_nrc _ cb).le ih
    | destroyCb => exact ih
    | create settings iso env now =>
        exact lt_of_le_of_lt (create_uds_server_nrc _ settings iso env now).le ih
    | send env pl rr now => exact send_payload_uds_nrc_lt _ env pl rr now ih
    | tick env now => exact tester_present_tick_nrc_lt _ env now ih
    | destroy => exact ih

/-- C10 witness: the theorem at the initial state. -/
theorem ecu_error_code_total_witness :
    get_ecu_error_code initialState < 256 ∧ get_ecu_error_code initialState = 0 :=
  ⟨(ecu_error_code_total initialState Reachable.init).1,
    (ecu_error_code_total initialState Reachable.init).2⟩

end EcuDiagnostics
